import Mathlib

/-!
Verification of the CLIP-Field training notebook.

Shallow embedding of the training/evaluation logic of
`demo/3 - training a CLIP field.ipynb`:

* pairwise label-mask construction inside `train`
  (`(index != index.t()).float() + torch.eye(batch_size)`),
* `zero_shot_eval` (validity mask, degenerate branch, cross-entropy,
  metric updates, `@torch.no_grad()`),
* the per-batch training step of `train` (contrastive-loss combination,
  backward scalar, optimizer step, temperature clamping),
* the epoch-end aggregation and metric read/reset of `train`.

Scalars are modelled as `ℝ` (mask entries as `ℚ`), tensors as lists,
machine exceptions as `Except String`.  External collaborators
(`GridCLIPModel.forward`, `GridCLIPModel.compute_loss`, the optimizer
update, the classifier's `calculate_classifications`, and the
torchmetrics aggregation function) are abstract function parameters:
the spec places them out of scope, and no claim depends on their bodies.
-/

namespace ClipFields

/- Real-valued numeric kernels (`log`, `exp`, division, order) have no
executable code in Lean; all control flow and label logic below is still
plain structural/decidable computation that the kernel reduces. -/
noncomputable section

/-! ## A minimal dtype-aware 1-d tensor

Only what the degenerate branch of `zero_shot_eval` needs.
`torch.logical_and` produces a Bool tensor, `torch.zeros_like` preserves
dtype, and `torch.mean` is defined only for floating (and complex)
dtypes: on a Bool tensor PyTorch raises
`RuntimeError: Can only calculate the mean of floating types. Got Bool instead.`
-/

inductive DType where
  | bool : DType
  | float : DType

structure Tensor1 where
  dtype : DType
  data : List ℝ

/-- A Bool tensor, as produced by `torch.logical_and`; `True ↦ 1`, `False ↦ 0`. -/
def boolTensor (bs : List Bool) : Tensor1 :=
  ⟨DType.bool, bs.map (fun b => if b then 1 else 0)⟩

/-- Model of `torch.zeros_like`: zero-filled tensor of the same shape and the SAME dtype. -/
def zeros_like (t : Tensor1) : Tensor1 :=
  ⟨t.dtype, t.data.map (fun _ => 0)⟩

/-- The PyTorch `RuntimeError` message raised by `mean` on a Bool tensor. -/
def meanBoolErrMsg : String :=
  "RuntimeError: Can only calculate the mean of floating types. Got Bool instead."

/-- Model of `torch.Tensor.mean` (full reduction): defined for floating dtypes only;
raises a `RuntimeError` on Bool input. -/
def Tensor1.mean (t : Tensor1) : Except String ℝ :=
  match t.dtype with
  | DType.float => Except.ok (t.data.sum / t.data.length)
  | DType.bool => Except.error meanBoolErrMsg

/-! ## Pairwise label masks (`train`, mask-construction lines)

Source:
```
image_label_mask = (image_label_index != image_label_index.t()).float()
                   + torch.eye(batch_size, device=device)
language_label_mask = (language_label_index != language_label_index.t()).float()
                      + torch.eye(batch_size, device=device)
```
A batch's label column is a `List Int` (both `img_idx` and `label` are
integer identifiers; `-1` is the "unlabeled" sentinel of the semantic
space).  Entry `(i, j)` of the broadcast comparison is
`1.0` iff the two identifiers differ, and `torch.eye` adds `1.0` on the
diagonal. -/

/-- Entry `(i, j)` of `(idx != idx.t()).float() + torch.eye n`, read off the
source expression. -/
def maskEntry (idx : List Int) (i j : Nat) : ℚ :=
  (if idx.getD i 0 ≠ idx.getD j 0 then 1 else 0) + (if i = j then 1 else 0)

/-- Modelled from the spec's words (§4.1): "an N×N matrix where entry
(i,j) = 1.0 if sample i and sample j have *different* label identifiers,
else 0.0, with the diagonal forced to 1.0 added on top".  Kept separate
from `maskEntry` so the two can be compared. -/
def maskEntrySpec (idx : List Int) (i j : Nat) : ℚ :=
  (if idx.getD i 0 = idx.getD j 0 then 0 else 1) + (if i = j then 1 else 0)

/-- The full N×N mask matrix over a label column, N = `idx.length`
(`batch_size = len(image_label_index)` in the source). -/
def labelMask (idx : List Int) : List (List ℚ) :=
  (List.range idx.length).map (fun i =>
    (List.range idx.length).map (fun j => maskEntry idx i j))

/-! ## Metric accumulators (torchmetrics collaborators)

A metric accumulator holds a list of the `(preds, target)` update calls
since its last reset; `compute` applies an abstract aggregation function
(the torchmetrics internals) to them, and raises a `RuntimeError` when no
update call has occurred (the case `train`'s epoch end catches).  `reset`
empties the accumulated state. -/

/-- One `calculators(masked_class_prob, masked_labels)` update call:
the selected probability rows and the selected integer labels. -/
abbrev MetricUpdate : Type := List (List ℝ) × List Int

structure Metric where
  aggregate : List MetricUpdate → ℝ
  updates : List MetricUpdate

def Metric.update (m : Metric) (probs : List (List ℝ)) (labels : List Int) : Metric :=
  ⟨m.aggregate, m.updates ++ [(probs, labels)]⟩

/-- The torchmetrics `RuntimeError` on `compute()` with no accumulated samples. -/
def metricComputeErrMsg : String :=
  "RuntimeError: The compute method of metric was called before any update."

def Metric.compute (m : Metric) : Except String ℝ :=
  if m.updates.isEmpty then Except.error metricComputeErrMsg
  else Except.ok (m.aggregate m.updates)

def Metric.reset (m : Metric) : Metric := ⟨m.aggregate, []⟩

/-- The dictionary `metric_calculators : Dict[str, Dict[str, torchmetrics.Metric]]`,
as an association list (Python dict keys are unique; nothing below
depends on uniqueness). -/
abbrev MetricDict : Type := List (String × List (String × Metric))

/-- Python `dict.get(key)`: `None` when the key is absent. -/
def dictGet (mc : MetricDict) (k : String) : Option (List (String × Metric)) :=
  (List.find? (fun kv => kv.1 == k) mc).map (fun kv => kv.2)

/-- Python truthiness of `metric_calculators.get("semantic")`: `None` and
the empty dict are falsy. -/
def metricsTruthy : Option (List (String × Metric)) → Bool
  | none => false
  | some l => !l.isEmpty

/-- The update loop `for _, calculators in metric_calculators["semantic"].items():
_ = calculators(masked_class_prob, masked_labels)`, which mutates only the
metrics stored under key `k` (keys are preserved). -/
def updateKey (mc : MetricDict) (k : String) (probs : List (List ℝ))
    (labels : List Int) : MetricDict :=
  mc.map (fun kv =>
    if kv.1 = k then (kv.1, kv.2.map (fun nm => (nm.1, nm.2.update probs labels)))
    else kv)

/-! ## The zero-shot classification evaluator (`zero_shot_eval`) -/

/-- The `ClassificationExtractor` collaborator: a closed class vocabulary
size and the (external, similarity-based) map from predicted text/image
features to per-sample class probability rows. -/
structure Classifier where
  total_label_classes : Nat
  calculate_classifications : List (List ℝ) → List (List ℝ) → List (List ℝ)

/-- The validity mask
`torch.logical_and(language_label_index != -1, language_label_index < classifier.total_label_classes)`:
one Bool per sample. -/
def semsegMask (classes : Nat) (labels : List Int) : List Bool :=
  labels.map (fun l => decide (l ≠ -1) && decide (l < (classes : Int)))

/-- Boolean-mask row selection `t[mask]`: keep the entries at positions
where the mask is `True`. -/
def maskSelect {α : Type} (mask : List Bool) (xs : List α) : List α :=
  (List.zip mask xs).filterMap (fun bx => if bx.1 then some bx.2 else none)

/-- The expression `log(sum(exp(row)))`, the normalizer of `log_softmax`. -/
def logSumExp (row : List ℝ) : ℝ := Real.log ((row.map Real.exp).sum)

/-- Per-sample term of `F.cross_entropy(input, target)`:
`-input[target] + logsumexp(input)`. -/
def nllAt (row : List ℝ) (y : Nat) : ℝ := -(row.getD y 0) + logSumExp row

/-- Model of `F.cross_entropy` with its default mean reduction, inputs treated as
logits and integer class targets.  (PyTorch rejects out-of-range targets;
the value of the loss is all that is observed here, so indexing uses
`Int.toNat` with a default.) -/
def cross_entropy (input : List (List ℝ)) (target : List Int) : ℝ :=
  (((input.zip target).map (fun p => nllAt p.1 p.2.toNat)).sum) / input.length

/-- A scalar tensor together with its autograd `requires_grad` flag. -/
structure Tracked where
  val : ℝ
  requires_grad : Bool

/-- Body of `zero_shot_eval`, parametrized by the autograd gradient mode
in force (tensors created while gradient mode is off never require grad).
Returns the classification-loss result and the metric dictionary state
after the call; a raised exception propagates as `Except.error` and
leaves the metrics untouched. -/
def zero_shot_eval_core (gradEnabled : Bool) (classifier : Classifier)
    (predicted_label_latents predicted_image_latents : List (List ℝ))
    (language_label_index : List Int) (metric_calculators : MetricDict) :
    Except String Tracked × MetricDict :=
  let class_probs := classifier.calculate_classifications
    predicted_label_latents predicted_image_latents
  let semseg_mask := semsegMask classifier.total_label_classes language_label_index
  if !(semseg_mask.any id) then
    -- classification_loss = torch.zeros_like(semseg_mask).mean(dim=-1)
    match (zeros_like (boolTensor semseg_mask)).mean with
    | Except.error e => (Except.error e, metric_calculators)
    | Except.ok v => (Except.ok ⟨v, gradEnabled⟩, metric_calculators)
  else
    let masked_class_prob := maskSelect semseg_mask class_probs
    let masked_labels := maskSelect semseg_mask language_label_index
    let classification_loss :=
      cross_entropy (masked_class_prob.map (fun r => r.map Real.log)) masked_labels
    let mc :=
      if metricsTruthy (dictGet metric_calculators "semantic") then
        updateKey metric_calculators "semantic" masked_class_prob masked_labels
      else metric_calculators
    (Except.ok ⟨classification_loss, gradEnabled⟩, mc)

/-- The notebook function `zero_shot_eval` as defined in the notebook: the body runs under the
`@torch.no_grad()` decorator, i.e. with gradient mode off. -/
def zero_shot_eval (classifier : Classifier)
    (predicted_label_latents predicted_image_latents : List (List ℝ))
    (language_label_index : List Int) (metric_calculators : MetricDict) :
    Except String Tracked × MetricDict :=
  zero_shot_eval_core false classifier predicted_label_latents
    predicted_image_latents language_label_index metric_calculators

/-! ## The field model, batch data, and one batch of `train` -/

/-- The `GridCLIPModel` collaborator: `forward` maps coordinates to
`(predicted_label_latents, predicted_image_latents)`; `compute_loss` maps
`(predicted, target, label_mask, weights)` to the scalar contrastive loss;
`temperature` is the learned scalar clamped by `train`. -/
structure Model where
  forward : List (List ℝ) → List (List ℝ) × List (List ℝ)
  compute_loss : List (List ℝ) → List (List ℝ) → List (List ℚ) → List ℝ → ℝ
  temperature : ℝ

/-- One batch yielded by the loader (`clip_data_dict` fields used by `train`). -/
structure BatchData where
  xyz : List (List ℝ)
  clip_vector : List (List ℝ)
  clip_image_vector : List (List ℝ)
  distance : List ℝ
  semantic_weight : List ℝ
  img_idx : List Int
  label : List Int

/-- Notebook constant (`= 1.0`), the default of the
`image_to_label_loss_ratio` parameter. -/
def IMAGE_TO_LABEL_CLIP_LOSS_SCALE : ℝ := 1

/-- Notebook constant (`= 1.0`), the default of the
`label_to_image_loss_ratio` parameter. -/
def LABEL_TO_IMAGE_LOSS_SCALE : ℝ := 1

/-- Notebook constant, the default of the `exp_decay_coeff` parameter. -/
def EXP_DECAY_COEFF : ℝ := 0.5

/-- The scalar parameters of `train` together with the effect of
`contrastive_loss.backward(); optim.step()`: `optStep` consumes the
backpropagated scalar and updates the model parameters (temperature
included) — its body is the external optimizer.  The two loss-scale
fields are the `image_to_label_loss_ratio` and `label_to_image_loss_ratio`
parameters of `train`. -/
structure TrainParams where
  exp_decay_coeff : ℝ
  imageToLabelLossScale : ℝ
  labelToImageLossScale : ℝ
  optStep : ℝ → Model → Model

/-- Source line `image_weights = torch.exp(-exp_decay_coeff * clip_data_dict["distance"])`. -/
def imageWeights (coeff : ℝ) (distance : List ℝ) : List ℝ :=
  distance.map (fun d => Real.exp (-coeff * d))

/-- Source line `contrastive_loss_labels = labelling_model.compute_loss(predicted_label_latents,
clip_labels, label_mask=language_label_mask, weights=label_weights)`. -/
def contrastiveLossLabels (m : Model) (b : BatchData) : ℝ :=
  m.compute_loss (m.forward b.xyz).1 b.clip_vector (labelMask b.label) b.semantic_weight

/-- Source line `contrastive_loss_images = labelling_model.compute_loss(predicted_image_latents,
clip_image_labels, label_mask=image_label_mask, weights=image_weights)`. -/
def contrastiveLossImages (ps : TrainParams) (m : Model) (b : BatchData) : ℝ :=
  m.compute_loss (m.forward b.xyz).2 b.clip_image_vector (labelMask b.img_idx)
    (imageWeights ps.exp_decay_coeff b.distance)

/-- Source line `contrastive_loss = image_to_label_loss_ratio * contrastive_loss_images
+ label_to_image_loss_ratio * contrastive_loss_labels`: the one scalar on
which `.backward()` is called. -/
def combinedLoss (ps : TrainParams) (m : Model) (b : BatchData) : ℝ :=
  ps.imageToLabelLossScale * contrastiveLossImages ps m b
    + ps.labelToImageLossScale * contrastiveLossLabels m b

/-- Model of `optim.step()` followed by
`labelling_model.temperature.data = torch.clamp(labelling_model.temperature.data,
max=np.log(100.0))`: the optimizer update of the parameters and the
post-step clamp of the temperature (`torch.clamp` with only `max=c` is
`min · c`). -/
def optimStepAndClamp (optStep : ℝ → Model → Model) (scalar : ℝ) (m : Model) : Model :=
  let m2 := optStep scalar m
  ⟨m2.forward, m2.compute_loss, min m2.temperature (Real.log 100)⟩

/-- The loop-carried state of one `train` call: the model, the metric
accumulators, and the scalar totals initialized before the batch loop.
`lastBackwardScalar` additionally records the scalar most recently handed
to `.backward()` (pure observation, for stating claims). -/
structure EpochState where
  model : Model
  metrics : MetricDict
  label_loss : ℝ
  image_loss : ℝ
  total_classification_loss : ℝ
  total_loss : ℝ
  total_samples : Nat
  lastBackwardScalar : ℝ

/-- Source initialization `total_loss = 0; label_loss = 0; image_loss = 0; total_samples = 0;
total_classification_loss = 0` before the loop. -/
def initEpochState (m : Model) (mc : MetricDict) : EpochState :=
  ⟨m, mc, 0, 0, 0, 0, 0, 0⟩

/-- One iteration of the batch loop of `train`: forward pass, the two
contrastive losses over the two masks, `zero_shot_eval` (whose raised
exception aborts the step), the weighted-sum scalar, backward/optimizer
step with post-step temperature clamp, and the accumulator updates. -/
def trainBatchSt (ps : TrainParams) (c : Classifier) (b : BatchData)
    (st : EpochState) : Except String EpochState :=
  match zero_shot_eval c (st.model.forward b.xyz).1 (st.model.forward b.xyz).2
      b.label st.metrics with
  | (Except.error e, _) => Except.error e
  | (Except.ok classification_loss, metrics2) =>
    Except.ok {
      model := optimStepAndClamp ps.optStep (combinedLoss ps st.model b) st.model
      metrics := metrics2
      label_loss := st.label_loss + contrastiveLossLabels st.model b
      image_loss := st.image_loss + contrastiveLossImages ps st.model b
      total_classification_loss :=
        st.total_classification_loss + classification_loss.val
      total_loss := st.total_loss + combinedLoss ps st.model b
      total_samples := st.total_samples + 1
      lastBackwardScalar := combinedLoss ps st.model b }

/-- The batch loop of `train` over the loader's batches; a raised
exception aborts the epoch. -/
def runBatches (ps : TrainParams) (c : Classifier) (bs : List BatchData)
    (st : EpochState) : Except String EpochState :=
  match bs with
  | [] => Except.ok st
  | b :: rest =>
    match trainBatchSt ps c b st with
    | Except.error e => Except.error e
    | Except.ok st2 => runBatches ps c rest st2

/-- The Python `ZeroDivisionError` message. -/
def zeroDivErrMsg : String := "ZeroDivisionError: division by zero"

/-- Python division of an accumulated total by the batch counter:
raises `ZeroDivisionError` when the counter is 0. -/
def pyDiv (x : ℝ) (n : Nat) : Except String ℝ :=
  if n = 0 then Except.error zeroDivErrMsg else Except.ok (x / n)

/-- Source `try: to_log[...] = metric.compute()... except RuntimeError: to_log[...] = 0.0`:
the logged value of one metric accumulator. -/
def readMetric (m : Metric) : ℝ :=
  match m.compute with
  | Except.ok v => v
  | Except.error _ => 0

/-- The epoch-end metric loop of `train`: one `train_avg/`-keyed log entry
per configured metric (0.0 substituted when `compute` raises), and every
accumulator reset — the reset is outside the `try`, so it runs in the
success and the failure case alike. -/
def readAndResetMetrics (mc : MetricDict) : List (String × ℝ) × MetricDict :=
  (mc.flatMap (fun kv => kv.2.map (fun nm => ("train_avg/" ++ nm.1, readMetric nm.2))),
   mc.map (fun kv => (kv.1, kv.2.map (fun nm => (nm.1, Metric.reset nm.2)))))

/-- The epoch-end `to_log` construction of `train`: the four accumulated
totals each divided by `total_samples` (in source order, so the first
division raises on an empty loader), the exponentiated temperature, then
the metric read/reset loop.  Returns the emitted report and the metric
state after the resets. -/
def epochEnd (st : EpochState) : Except String (List (String × ℝ) × MetricDict) :=
  match pyDiv st.label_loss st.total_samples with
  | Except.error e => Except.error e
  | Except.ok v1 =>
    match pyDiv st.image_loss st.total_samples with
    | Except.error e => Except.error e
    | Except.ok v2 =>
      match pyDiv st.total_classification_loss st.total_samples with
      | Except.error e => Except.error e
      | Except.ok v3 =>
        match pyDiv st.total_loss st.total_samples with
        | Except.error e => Except.error e
        | Except.ok v4 =>
          Except.ok
            ([("train_avg/contrastive_loss_labels", v1),
              ("train_avg/contrastive_loss_images", v2),
              ("train_avg/semseg_loss", v3),
              ("train_avg/loss_sum", v4),
              ("train_avg/labelling_temp", Real.exp st.model.temperature)]
                ++ (readAndResetMetrics st.metrics).1,
             (readAndResetMetrics st.metrics).2)

/-- The observable outcome of one `train` call: the final loop state, the
report handed to `wandb.log`, and the metric accumulators after reset. -/
structure TrainOutput where
  finalState : EpochState
  to_log : List (String × ℝ)
  metricsAfter : MetricDict

/-- One epoch of `train`: the batch loop — the batch loop followed by the epoch-end report. -/
def train (ps : TrainParams) (classifier : Classifier) (loader : List BatchData)
    (labelling_model : Model) (metric_calculators : MetricDict) :
    Except String TrainOutput :=
  match runBatches ps classifier loader
      (initEpochState labelling_model metric_calculators) with
  | Except.error e => Except.error e
  | Except.ok st =>
    match epochEnd st with
    | Except.error e => Except.error e
    | Except.ok lg => Except.ok ⟨st, lg.1, lg.2⟩

/-! ## A state-passing view of `zero_shot_eval`

The Python function can reach, besides its arguments, the model
parameters (through the latents' autograd graph) and the predicted
embeddings; this record makes that reachable state explicit so the
frame of the call can be stated. -/

structure EvalEnv where
  model : Model
  latents : List (List ℝ) × List (List ℝ)
  metrics : MetricDict

def zero_shot_eval_env (c : Classifier) (labels : List Int) (env : EvalEnv) :
    Except String Tracked × EvalEnv :=
  let r := zero_shot_eval c env.latents.1 env.latents.2 labels env.metrics
  (r.1, ⟨env.model, env.latents, r.2⟩)

/-! ## Concrete instances used by the witnesses -/

def aggZero : List MetricUpdate → ℝ := fun _ => 0

def metricFresh : Metric := ⟨aggZero, []⟩

def mcSem : MetricDict :=
  [("semantic", [("semantic_accuracy_micro", metricFresh)]),
   ("other", [("x", metricFresh)])]

def classifierOne : Classifier := ⟨1, fun _ _ => [[1]]⟩

def classifierTwo : Classifier := ⟨2, fun _ _ => [[1, 0]]⟩

def modelZero : Model := ⟨fun _ => ([], []), fun _ _ _ _ => 0, 0⟩

def batchOne : BatchData := ⟨[], [], [], [], [], [0], [0]⟩

def psZero : TrainParams := ⟨1, 1, 1, fun _ m => m⟩

def stInit : EpochState := initEpochState modelZero []

def envZero : EvalEnv := ⟨modelZero, ([], []), []⟩

def stOne : EpochState := ⟨modelZero, mcSem, 0, 0, 0, 0, 1, 0⟩

end

/-! # Theorems -/

lemma rangeMapGetD {α : Type} (f : Nat → α) (d : α) {i n : Nat} (hi : i < n) :
    ((List.range n).map f).getD i d = f i := by
  rw [List.getD_eq_getElem?_getD]
  simp [List.getElem?_map, List.getElem?_range, hi]

lemma labelMask_entry (idx : List Int) {i j : Nat}
    (hi : i < idx.length) (hj : j < idx.length) :
    ((labelMask idx).getD i []).getD j 0 = maskEntry idx i j := by
  unfold labelMask
  rw [rangeMapGetD _ _ hi, rangeMapGetD _ _ hj]

lemma maskEntry_eq_spec (idx : List Int) (i j : Nat) :
    maskEntry idx i j = maskEntrySpec idx i j := by
  unfold maskEntry maskEntrySpec
  by_cases h : idx.getD i 0 = idx.getD j 0 <;> simp [h]

lemma maskEntry_symm (idx : List Int) (i j : Nat) :
    maskEntry idx i j = maskEntry idx j i := by
  unfold maskEntry
  by_cases h : idx.getD i 0 = idx.getD j 0 <;>
    by_cases hij : i = j <;> simp [h, hij, Ne.symm, eq_comm]

lemma maskEntry_diag (idx : List Int) (i : Nat) :
    maskEntry idx i i = 1 := by
  simp [maskEntry]

/-- C1: the pairwise mask built by `train` (for either label space:
`img_idx` for the visual branch, `label` for the semantic branch) equals,
entrywise, the matrix "1.0 where the identifiers differ, 0.0 where they
are equal" plus the identity; consequently it is symmetric and every
diagonal entry is exactly 1, with no condition on the identifier values
(sentinel included). -/
theorem train_pairwise_mask_spec (idx : List Int) (i j : Nat)
    (hi : i < idx.length) (hj : j < idx.length) :
    ((labelMask idx).getD i []).getD j 0 = maskEntrySpec idx i j ∧
    maskEntry idx i j = maskEntrySpec idx i j ∧
    ((labelMask idx).getD i []).getD j 0 = ((labelMask idx).getD j []).getD i 0 ∧
    ((labelMask idx).getD i []).getD i 0 = 1 := by
  refine ⟨?_, maskEntry_eq_spec idx i j, ?_, ?_⟩
  · rw [labelMask_entry idx hi hj]; exact maskEntry_eq_spec idx i j
  · rw [labelMask_entry idx hi hj, labelMask_entry idx hj hi]
    exact maskEntry_symm idx i j
  · rw [labelMask_entry idx hi hi]; exact maskEntry_diag idx i

/-- Witness for C1 at the concrete batch `[3, 3]`, entry (0, 1). -/
theorem train_pairwise_mask_spec_witness :
    ((labelMask [3, 3]).getD 0 []).getD 1 0 = maskEntrySpec [3, 3] 0 1 ∧
    maskEntry [3, 3] 0 1 = maskEntrySpec [3, 3] 0 1 ∧
    ((labelMask [3, 3]).getD 0 []).getD 1 0 = ((labelMask [3, 3]).getD 1 []).getD 0 0 ∧
    ((labelMask [3, 3]).getD 0 []).getD 0 0 = 1 :=
  train_pairwise_mask_spec [3, 3] 0 1 (by decide) (by decide)

/-- C6: two distinct samples that both carry the sentinel `-1` get mask
entry 0 (treated as a same-label, non-negative pair), exactly as any other
pair of equal identifiers does. -/
theorem unlabeled_pair_mask_zero (idx : List Int) (i j : Nat) (hij : i ≠ j)
    (hi : idx.getD i 0 = -1) (hj : idx.getD j 0 = -1) :
    maskEntry idx i j = 0 ∧
    ∀ (idx2 : List Int) (a b : Nat), a ≠ b →
      idx2.getD a 0 = idx2.getD b 0 → maskEntry idx2 a b = 0 := by
  have general : ∀ (idx2 : List Int) (a b : Nat), a ≠ b →
      idx2.getD a 0 = idx2.getD b 0 → maskEntry idx2 a b = 0 := by
    intro idx2 a b hab heq
    unfold maskEntry
    rw [heq]
    simp [hab]
  exact ⟨general idx i j hij (by rw [hi, hj]), general⟩

/-- Witness for C6 at the concrete batch `[-1, -1]`, pair (0, 1). -/
theorem unlabeled_pair_mask_zero_witness :
    maskEntry [-1, -1] 0 1 = 0 ∧
    ∀ (idx2 : List Int) (a b : Nat), a ≠ b →
      idx2.getD a 0 = idx2.getD b 0 → maskEntry idx2 a b = 0 :=
  unlabeled_pair_mask_zero [-1, -1] 0 1 (by decide) (by decide) (by decide)

/-- C2 (code bug): on a batch whose label identifiers are all the
sentinel `-1`, `zero_shot_eval` does not return a 0.0 loss:
`torch.zeros_like(semseg_mask)` keeps the Bool dtype of the validity mask,
`.mean(dim=-1)` on a Bool tensor raises a `RuntimeError`, and the
exception propagates out of the function.  (The metric accumulators are
indeed left unchanged, but only because the call aborts.)  Evaluation of
the code at the failing input. -/
theorem zero_shot_eval_all_unlabeled_raises :
    zero_shot_eval classifierOne [] [] [-1, -1] mcSem =
      (Except.error meanBoolErrMsg, mcSem) := rfl

lemma exists_valid_any (c : Classifier) (labels : List Int)
    (h : ∃ l ∈ labels, l ≠ -1 ∧ l < (c.total_label_classes : Int)) :
    (semsegMask c.total_label_classes labels).any id = true := by
  rcases h with ⟨l, hl, h1, h2⟩
  unfold semsegMask
  rw [List.any_eq_true]
  refine ⟨decide (l ≠ -1) && decide (l < (c.total_label_classes : Int)),
    List.mem_map_of_mem _ hl, ?_⟩
  simp [h1, h2]

lemma maskSelect_cons {α : Type} (b : Bool) (ms : List Bool) (x : α) (xs : List α) :
    maskSelect (b :: ms) (x :: xs) =
      if b then x :: maskSelect ms xs else maskSelect ms xs := by
  by_cases h : b = true <;> simp [maskSelect, h]

lemma maskSelect_map_self (p : Int → Bool) (labels : List Int) :
    maskSelect (labels.map p) labels = labels.filter p := by
  induction labels with
  | nil => rfl
  | cons x xs ih =>
    rw [List.map_cons, maskSelect_cons, List.filter_cons]
    by_cases h : p x = true <;> simp [h, ih]

lemma semsegMask_getD (c : Classifier) (labels : List Int) (i : Nat)
    (hi : i < labels.length) :
    ((semsegMask c.total_label_classes labels).getD i false = true ↔
      (labels.getD i 0 ≠ -1 ∧ labels.getD i 0 < (c.total_label_classes : Int))) := by
  unfold semsegMask
  rw [List.getD_eq_getElem?_getD, List.getElem?_map,
    List.getD_eq_getElem?_getD, List.getElem?_eq_getElem hi]
  simp

/-- C4: on a batch with at least one valid sample, `zero_shot_eval`
selects exactly the samples whose label is not the sentinel `-1` and is
strictly below the classifier's class count, and returns the cross-entropy
between the log of the selected class-probability rows and the selected
(integer) labels. -/
theorem zero_shot_eval_valid_branch (c : Classifier) (pl pi2 : List (List ℝ))
    (labels : List Int) (mc : MetricDict)
    (h : ∃ l ∈ labels, l ≠ -1 ∧ l < (c.total_label_classes : Int)) :
    (zero_shot_eval c pl pi2 labels mc).1 =
      Except.ok ⟨cross_entropy
        ((maskSelect (semsegMask c.total_label_classes labels)
            (c.calculate_classifications pl pi2)).map (fun r => r.map Real.log))
        (maskSelect (semsegMask c.total_label_classes labels) labels), false⟩ ∧
    maskSelect (semsegMask c.total_label_classes labels) labels =
      labels.filter
        (fun l => decide (l ≠ -1) && decide (l < (c.total_label_classes : Int))) ∧
    ∀ i, i < labels.length →
      ((semsegMask c.total_label_classes labels).getD i false = true ↔
        (labels.getD i 0 ≠ -1 ∧ labels.getD i 0 < (c.total_label_classes : Int))) := by
  have hany := exists_valid_any c labels h
  refine ⟨?_, maskSelect_map_self _ labels, fun i hi => semsegMask_getD c labels i hi⟩
  simp only [zero_shot_eval, zero_shot_eval_core, hany, Bool.not_true, if_false]
  simp

/-- Witness for C4: one sample with the valid label 0, vocabulary size 1. -/
theorem zero_shot_eval_valid_branch_witness :
    (zero_shot_eval classifierOne [] [] [0] []).1 =
      Except.ok ⟨cross_entropy
        ((maskSelect (semsegMask classifierOne.total_label_classes [0])
            (classifierOne.calculate_classifications [] [])).map
          (fun r => r.map Real.log))
        (maskSelect (semsegMask classifierOne.total_label_classes [0]) [0]), false⟩ ∧
    maskSelect (semsegMask classifierOne.total_label_classes [0]) [0] =
      List.filter
        (fun l => decide (l ≠ -1) &&
          decide (l < (classifierOne.total_label_classes : Int))) [0] ∧
    ∀ i, i < ([0] : List Int).length →
      ((semsegMask classifierOne.total_label_classes [0]).getD i false = true ↔
        (([0] : List Int).getD i 0 ≠ -1 ∧
          ([0] : List Int).getD i 0 < (classifierOne.total_label_classes : Int))) :=
  zero_shot_eval_valid_branch classifierOne [] [] [0] []
    ⟨0, by decide, by decide, by decide⟩

lemma find?_cons_eq {α : Type} (p : α → Bool) (a : α) (l : List α) :
    List.find? p (a :: l) = if p a then some a else List.find? p l := by
  by_cases h : p a = true <;> simp [List.find?, h]

lemma dictGet_updateKey_ne (mc : MetricDict) (k k2 : String)
    (probs : List (List ℝ)) (labels : List Int) (hk : k2 ≠ k) :
    dictGet (updateKey mc k probs labels) k2 = dictGet mc k2 := by
  induction mc with
  | nil => rfl
  | cons kv rest ih =>
    unfold updateKey at ih ⊢
    unfold dictGet at ih ⊢
    rw [List.map_cons]
    by_cases hkv : kv.1 = k
    · have hne : (kv.1 == k2) = false := by
        rw [hkv]
        exact beq_eq_false_iff_ne.mpr (Ne.symm hk)
      rw [if_pos hkv, find?_cons_eq, find?_cons_eq,
        if_neg (by simp [hne]), if_neg (by simp [hne])]
      exact ih
    · rw [if_neg hkv, find?_cons_eq, find?_cons_eq]
      by_cases hkk : (kv.1 == k2) = true
      · rw [if_pos hkk, if_pos hkk]
      · rw [if_neg hkk, if_neg hkk]
        exact ih

/-- C8: `zero_shot_eval` updates only the metric accumulators stored
under the `"semantic"` key: for any other key the stored accumulators are
unchanged by the call, on every input (degenerate batch included). -/
theorem zero_shot_eval_other_keys (c : Classifier) (pl pi2 : List (List ℝ))
    (labels : List Int) (mc : MetricDict) (k : String) (hk : k ≠ "semantic") :
    dictGet (zero_shot_eval c pl pi2 labels mc).2 k = dictGet mc k := by
  unfold zero_shot_eval zero_shot_eval_core
  by_cases hm : (semsegMask c.total_label_classes labels).any id
  · simp only [hm, Bool.not_true, if_false]
    by_cases ht : metricsTruthy (dictGet mc "semantic") = true
    · simp only [ht, if_true]
      exact dictGet_updateKey_ne mc "semantic" k _ _ hk
    · simp only [ht]
      simp
  · simp [hm, Tensor1.mean, zeros_like, boolTensor]

/-- Witness for C8 at the key `"other"` of a populated metric dictionary. -/
theorem zero_shot_eval_other_keys_witness :
    dictGet (zero_shot_eval classifierOne [] [] [0] mcSem).2 "other" =
      dictGet mcSem "other" :=
  zero_shot_eval_other_keys classifierOne [] [] [0] mcSem "other" (by decide)

lemma trainBatchSt_ok (ps : TrainParams) (c : Classifier) (b : BatchData)
    (st st' : EpochState) (h : trainBatchSt ps c b st = Except.ok st') :
    st'.model = optimStepAndClamp ps.optStep (combinedLoss ps st.model b) st.model ∧
    st'.lastBackwardScalar = combinedLoss ps st.model b ∧
    st'.total_samples = st.total_samples + 1 := by
  unfold trainBatchSt at h
  rcases hz : zero_shot_eval c (st.model.forward b.xyz).1 (st.model.forward b.xyz).2
      b.label st.metrics with ⟨r, mc2⟩
  rw [hz] at h
  cases r with
  | error e => exact absurd h (by simp)
  | ok cl =>
    simp only [Except.ok.injEq] at h
    rw [← h]
    exact ⟨rfl, rfl, rfl⟩

/-- C3: the single scalar `train` hands to `.backward()` (and through
it to the optimizer step) is `image_to_label_loss_ratio` times the visual
contrastive loss plus `label_to_image_loss_ratio` times the semantic
contrastive loss; the zero-shot classification loss is not a summand: the
post-step model (and the backward scalar itself) is identical under any
two classifiers, so the classification loss never feeds the backward pass
or the optimizer step.  Both notebook default scales equal 1.0. -/
theorem backward_scalar_weighted_contrastive_sum (ps : TrainParams)
    (c c2 : Classifier) (b : BatchData) (st st₁ st₂ : EpochState)
    (h₁ : trainBatchSt ps c b st = Except.ok st₁)
    (h₂ : trainBatchSt ps c2 b st = Except.ok st₂) :
    st₁.lastBackwardScalar =
      ps.imageToLabelLossScale * contrastiveLossImages ps st.model b
        + ps.labelToImageLossScale * contrastiveLossLabels st.model b ∧
    st₁.model = st₂.model ∧
    st₁.lastBackwardScalar = st₂.lastBackwardScalar ∧
    IMAGE_TO_LABEL_CLIP_LOSS_SCALE = 1 ∧ LABEL_TO_IMAGE_LOSS_SCALE = 1 := by
  obtain ⟨hm₁, hs₁, -⟩ := trainBatchSt_ok ps c b st st₁ h₁
  obtain ⟨hm₂, hs₂, -⟩ := trainBatchSt_ok ps c2 b st st₂ h₂
  refine ⟨?_, ?_, ?_, rfl, rfl⟩
  · rw [hs₁]; rfl
  · rw [hm₁, hm₂]
  · rw [hs₁, hs₂]

/-- Witness for C3: a concrete one-sample batch run under two different
classifiers. -/
theorem backward_scalar_weighted_contrastive_sum_witness :
    ∃ st₁ st₂,
      trainBatchSt psZero classifierOne batchOne stInit = Except.ok st₁ ∧
      trainBatchSt psZero classifierTwo batchOne stInit = Except.ok st₂ ∧
      (st₁.lastBackwardScalar =
        psZero.imageToLabelLossScale * contrastiveLossImages psZero stInit.model batchOne
          + psZero.labelToImageLossScale * contrastiveLossLabels stInit.model batchOne ∧
       st₁.model = st₂.model ∧
       st₁.lastBackwardScalar = st₂.lastBackwardScalar ∧
       IMAGE_TO_LABEL_CLIP_LOSS_SCALE = 1 ∧ LABEL_TO_IMAGE_LOSS_SCALE = 1) := by
  refine ⟨_, _, rfl, rfl, ?_⟩
  exact backward_scalar_weighted_contrastive_sum psZero classifierOne classifierTwo
    batchOne stInit _ _ rfl rfl

lemma trainBatchSt_temp (ps : TrainParams) (c : Classifier) (b : BatchData)
    (st st' : EpochState) (h : trainBatchSt ps c b st = Except.ok st') :
    st'.model.temperature ≤ Real.log 100 := by
  obtain ⟨hm, -, -⟩ := trainBatchSt_ok ps c b st st' h
  rw [hm]
  exact min_le_right _ _

lemma runBatches_ok_temp (ps : TrainParams) (c : Classifier) :
    ∀ (bs : List BatchData) (st st' : EpochState),
      runBatches ps c bs st = Except.ok st' →
      st' = st ∨ st'.model.temperature ≤ Real.log 100 := by
  intro bs
  induction bs with
  | nil =>
    intro st st' h
    unfold runBatches at h
    simp only [Except.ok.injEq] at h
    exact Or.inl h.symm
  | cons b rest ih =>
    intro st st' h
    unfold runBatches at h
    cases hz : trainBatchSt ps c b st with
    | error e => rw [hz] at h; exact absurd h (by simp)
    | ok st2 =>
      rw [hz] at h
      rcases ih st2 st' h with heq | hle
      · exact Or.inr (heq ▸ trainBatchSt_temp ps c b st st2 hz)
      · exact Or.inr hle

/-- C5: the training step clamps the temperature right after every
optimizer step: the post-step-and-clamp temperature is at most `ln 100`
(so its exponential is at most 100), whatever value the optimizer wrote;
consequently, after any nonempty prefix of the batch loop the model's
temperature satisfies the bound. -/
theorem temperature_clamped_after_step (ps : TrainParams) (c : Classifier)
    (bs : List BatchData) (st st' : EpochState) :
    (∀ (os : ℝ → Model → Model) (s : ℝ) (m : Model),
      (optimStepAndClamp os s m).temperature ≤ Real.log 100 ∧
      Real.exp (optimStepAndClamp os s m).temperature ≤ 100) ∧
    (bs ≠ [] → runBatches ps c bs st = Except.ok st' →
      st'.model.temperature ≤ Real.log 100) := by
  have hclamp : ∀ (os : ℝ → Model → Model) (s : ℝ) (m : Model),
      (optimStepAndClamp os s m).temperature ≤ Real.log 100 := by
    intro os s m
    simp only [optimStepAndClamp]
    exact min_le_right _ _
  refine ⟨fun os s m => ⟨hclamp os s m, ?_⟩, ?_⟩
  · calc Real.exp (optimStepAndClamp os s m).temperature
        ≤ Real.exp (Real.log 100) := Real.exp_le_exp.mpr (hclamp os s m)
      _ = 100 := Real.exp_log (by norm_num)
  · intro hne h
    cases bs with
    | nil => exact absurd rfl hne
    | cons b rest =>
      unfold runBatches at h
      cases hz : trainBatchSt ps c b st with
      | error e => rw [hz] at h; exact absurd h (by simp)
      | ok st2 =>
        rw [hz] at h
        rcases runBatches_ok_temp ps c rest st2 st' h with heq | hle
        · exact heq ▸ trainBatchSt_temp ps c b st st2 hz
        · exact hle

/-- Witness for C5: one concrete batch starting from temperature 0. -/
theorem temperature_clamped_after_step_witness :
    ∃ st', runBatches psZero classifierOne [batchOne] stInit = Except.ok st' ∧
      st'.model.temperature ≤ Real.log 100 := by
  refine ⟨_, rfl, ?_⟩
  exact (temperature_clamped_after_step psZero classifierOne [batchOne] stInit _).2
    (by simp) rfl

/-- C9: `zero_shot_eval` runs under `@torch.no_grad()`: the loss it
returns never requires grad; the call leaves the model parameters and the
predicted embeddings unchanged (only the metric state moves); and the
post-step model of a training batch is the same under any two classifiers
— the evaluation cannot alter the parameter update of the step. -/
theorem zero_shot_eval_no_grad_frame :
    (∀ (c : Classifier) (pl pi2 : List (List ℝ)) (labels : List Int)
        (mc : MetricDict) (t : Tracked) (mc2 : MetricDict),
      zero_shot_eval c pl pi2 labels mc = (Except.ok t, mc2) →
      t.requires_grad = false) ∧
    (∀ (c : Classifier) (labels : List Int) (env : EvalEnv),
      (zero_shot_eval_env c labels env).2.model = env.model ∧
      (zero_shot_eval_env c labels env).2.latents = env.latents) ∧
    (∀ (ps : TrainParams) (c c2 : Classifier) (b : BatchData)
        (st st₁ st₂ : EpochState),
      trainBatchSt ps c b st = Except.ok st₁ →
      trainBatchSt ps c2 b st = Except.ok st₂ → st₁.model = st₂.model) := by
  refine ⟨?_, fun c labels env => ⟨rfl, rfl⟩, ?_⟩
  · intro c pl pi2 labels mc t mc2 h
    unfold zero_shot_eval zero_shot_eval_core at h
    by_cases hm : (semsegMask c.total_label_classes labels).any id
    · simp only [hm, Bool.not_true] at h
      rw [if_neg Bool.false_ne_true] at h
      have h1 := congrArg Prod.fst h
      injection h1 with h1
      rw [← h1]
    · simp [hm, Tensor1.mean, zeros_like, boolTensor, Prod.ext_iff] at h
  · intro ps c c2 b st st₁ st₂ h₁ h₂
    obtain ⟨hm₁, -, -⟩ := trainBatchSt_ok ps c b st st₁ h₁
    obtain ⟨hm₂, -, -⟩ := trainBatchSt_ok ps c2 b st st₂ h₂
    rw [hm₁, hm₂]

/-- Witness for C9 at concrete inputs (one valid sample, two classifiers). -/
theorem zero_shot_eval_no_grad_frame_witness :
    (∃ t, zero_shot_eval classifierOne [] [] [0] [] =
        (Except.ok t, ([] : MetricDict)) ∧ t.requires_grad = false) ∧
    ((zero_shot_eval_env classifierOne [0] envZero).2.model = envZero.model ∧
      (zero_shot_eval_env classifierOne [0] envZero).2.latents = envZero.latents) ∧
    (∃ st₁ st₂,
      trainBatchSt psZero classifierOne batchOne stInit = Except.ok st₁ ∧
      trainBatchSt psZero classifierTwo batchOne stInit = Except.ok st₂ ∧
      st₁.model = st₂.model) := by
  refine ⟨⟨_, rfl, ?_⟩, ?_, ⟨_, _, rfl, rfl, ?_⟩⟩
  · exact zero_shot_eval_no_grad_frame.1 classifierOne [] [] [0] [] _ [] rfl
  · exact zero_shot_eval_no_grad_frame.2.1 classifierOne [0] envZero
  · exact zero_shot_eval_no_grad_frame.2.2 psZero classifierOne classifierTwo
      batchOne stInit _ _ rfl rfl

/-- C7: at epoch end: a metric whose `compute` raises is logged as 0.0
(and a metric that was never updated does raise); a successful `compute`
is logged as its value; every accumulator is reset regardless of the
outcome; every configured metric contributes its report entry; and, as
long as the loop processed at least one batch, the epoch report is always
produced — a metric read failure never aborts it. -/
theorem metric_read_failure_zero_and_reset (mc : MetricDict) :
    (∀ (m : Metric) (e : String),
      Metric.compute m = Except.error e → readMetric m = 0) ∧
    (∀ (m : Metric) (v : ℝ), Metric.compute m = Except.ok v → readMetric m = v) ∧
    (∀ m : Metric, m.updates = [] →
      Metric.compute m = Except.error metricComputeErrMsg) ∧
    ((readAndResetMetrics mc).2 =
      mc.map (fun kv => (kv.1, kv.2.map (fun nm => (nm.1, Metric.reset nm.2))))) ∧
    (∀ (k : String) (ms : List (String × Metric)), (k, ms) ∈ mc →
      ∀ nm : String × Metric, nm ∈ ms →
        ("train_avg/" ++ nm.1, readMetric nm.2) ∈ (readAndResetMetrics mc).1) ∧
    (∀ st : EpochState, st.total_samples ≠ 0 →
      ∃ out, epochEnd st = Except.ok out) := by
  refine ⟨?_, ?_, ?_, rfl, ?_, ?_⟩
  · intro m e h
    unfold readMetric
    rw [h]
  · intro m v h
    unfold readMetric
    rw [h]
  · intro m h
    unfold Metric.compute
    rw [if_pos (by simp [h])]
  · intro k ms hms nm hnm
    unfold readAndResetMetrics
    rw [List.mem_flatMap]
    exact ⟨(k, ms), hms, List.mem_map_of_mem _ hnm⟩
  · intro st h
    unfold epochEnd pyDiv
    simp only [if_neg h]
    exact ⟨_, rfl⟩

/-- Witness for C7: a never-updated accumulator in a populated dictionary,
and an epoch state with one processed batch. -/
theorem metric_read_failure_zero_and_reset_witness :
    readMetric metricFresh = 0 ∧
    Metric.compute metricFresh = Except.error metricComputeErrMsg ∧
    ("train_avg/" ++ "semantic_accuracy_micro", readMetric metricFresh) ∈
      (readAndResetMetrics mcSem).1 ∧
    (∃ out, epochEnd stOne = Except.ok out) := by
  refine ⟨(metric_read_failure_zero_and_reset mcSem).1 metricFresh
      metricComputeErrMsg rfl,
    (metric_read_failure_zero_and_reset mcSem).2.2.1 metricFresh rfl,
    (metric_read_failure_zero_and_reset mcSem).2.2.2.2.1 "semantic"
      [("semantic_accuracy_micro", metricFresh)] ?_
      ("semantic_accuracy_micro", metricFresh) ?_,
    (metric_read_failure_zero_and_reset mcSem).2.2.2.2.2 stOne ?_⟩
  · exact List.mem_cons_self _ _
  · exact List.mem_cons_self _ _
  · decide

lemma runBatches_samples (ps : TrainParams) (c : Classifier) :
    ∀ (bs : List BatchData) (st st' : EpochState),
      runBatches ps c bs st = Except.ok st' →
      st'.total_samples = st.total_samples + bs.length := by
  intro bs
  induction bs with
  | nil =>
    intro st st' h
    unfold runBatches at h
    simp only [Except.ok.injEq] at h
    rw [← h]
    simp
  | cons b rest ih =>
    intro st st' h
    unfold runBatches at h
    cases hz : trainBatchSt ps c b st with
    | error e => rw [hz] at h; exact absurd h (by simp)
    | ok st2 =>
      rw [hz] at h
      obtain ⟨-, -, hs⟩ := trainBatchSt_ok ps c b st st2 hz
      rw [ih st2 st' h, hs, List.length_cons]
      omega

/-- C10: the epoch report divides each accumulated total by
`total_samples`, which starts at 0 and is incremented once per batch with
no guard: on an empty loader `train` hits the `ZeroDivisionError` branch
before emitting any report, and whenever `train` does return a report the
loader was nonempty and `total_samples` equals the number of batches. -/
theorem epoch_report_requires_batches (ps : TrainParams) (c : Classifier)
    (m : Model) (mc : MetricDict) :
    (train ps c [] m mc = Except.error zeroDivErrMsg) ∧
    (∀ (bs : List BatchData) (st' : EpochState),
      runBatches ps c bs (initEpochState m mc) = Except.ok st' →
      st'.total_samples = bs.length) ∧
    (∀ (bs : List BatchData) (out : TrainOutput),
      train ps c bs m mc = Except.ok out →
      bs ≠ [] ∧ out.finalState.total_samples = bs.length) := by
  have hsam : ∀ (bs : List BatchData) (st' : EpochState),
      runBatches ps c bs (initEpochState m mc) = Except.ok st' →
      st'.total_samples = bs.length := by
    intro bs st' h
    have hres := runBatches_samples ps c bs (initEpochState m mc) st' h
    simpa [initEpochState] using hres
  refine ⟨rfl, hsam, ?_⟩
  intro bs out h
  unfold train at h
  cases hr : runBatches ps c bs (initEpochState m mc) with
  | error e => rw [hr] at h; exact absurd h (by simp)
  | ok st =>
    rw [hr] at h
    have h2 : (match epochEnd st with
        | Except.error e => Except.error e
        | Except.ok lg =>
          Except.ok ⟨st, lg.1, lg.2⟩ : Except String TrainOutput) = Except.ok out := h
    cases he : epochEnd st with
    | error e => rw [he] at h2; exact absurd h2 (by simp)
    | ok lg =>
      rw [he] at h2
      simp only [Except.ok.injEq] at h2
      constructor
      · intro hbs
        subst hbs
        unfold runBatches at hr
        simp only [Except.ok.injEq] at hr
        rw [← hr] at he
        exact absurd (show (Except.error zeroDivErrMsg :
            Except String (List (String × ℝ) × MetricDict)) = Except.ok lg from he)
          (by simp)
      · rw [← h2]
        exact hsam bs st hr

/-- Witness for C10: a one-batch loader reaches `total_samples = 1`. -/
theorem epoch_report_requires_batches_witness :
    ∃ st', runBatches psZero classifierOne [batchOne]
        (initEpochState modelZero []) = Except.ok st' ∧
      st'.total_samples = [batchOne].length := by
  refine ⟨_, rfl, ?_⟩
  exact (epoch_report_requires_batches psZero classifierOne modelZero []).2.1
    [batchOne] _ rfl

end ClipFields
